import Mathlib

/-!
Shallow embedding of the Deye Cloud integration's API client
(`custom_components/deye_cloud_control/api.py`) and data-update coordinator
(`custom_components/deye_cloud_control/__init__.py`).

Modelling conventions:
* Machine time instants (Python `time.time()` floats) are modelled as `Int`;
  only additions and order comparisons on them occur in the source.
* JSON dictionaries are modelled as association lists `List (String × _)`
  with Python `dict` lookup/assignment/update semantics (`dictGet`,
  `dictSet`, `dictUpdate`).
* Python truthiness of an optional string (`if not x`) is `strTruthy`.
* Exceptions are modelled with `Except`; `aiohttp.ClientError` and
  `asyncio.TimeoutError` are both re-raised as `DeyeCloudApiError`
  (api.py lines 99-104 and 156-161), so transport failures surface as
  `DeyeErr.api` values.
* Network calls performed by the client are parameters (oracles): a field
  of `Api` gives, for the current refresh cycle, the outcome each call
  would produce for a given argument.
-/

namespace DeyeCloud

/-- An application-level response code as found in a JSON body: a JSON
number, a JSON string, or absent (`result.get("code")` returning `None`). -/
inductive Code : Type where
  | num (n : Int)
  | str (s : String)
  | absent
deriving DecidableEq, Repr

/-- The success equivalence class checked by `obtain_token` (api.py line 83)
and `_request` (api.py line 147): `[0, 1000000, "0", "1000000"]`. -/
def successCodes : List Code :=
  [Code.num 0, Code.num 1000000, Code.str "0", Code.str "1000000"]

/-- The auth-rejection codes of `_request` (api.py line 150):
`[1001, 1002, 1003, "1001", "1002", "1003", 2101017, "2101017"]`. -/
def authErrorCodes : List Code :=
  [Code.num 1001, Code.num 1002, Code.num 1003,
   Code.str "1001", Code.str "1002", Code.str "1003",
   Code.num 2101017, Code.str "2101017"]

/-- The client's error taxonomy (api.py lines 18-25): `DeyeCloudApiError`
and its subclass `DeyeCloudAuthError`.  Transport failures are wrapped
into `DeyeCloudApiError`, i.e. `DeyeErr.api`. -/
inductive DeyeErr : Type where
  | auth (msg : String)
  | api (msg : String)
deriving DecidableEq, Repr

/-- Python truthiness of an optional string: `None` and `""` are falsy. -/
def strTruthy : Option String → Bool
  | none => false
  | some s => !s.isEmpty

/-- The `data` object of a login response (api.py lines 88-94): the fields
`accessToken` and `expiresIn` that `obtain_token` reads, each possibly absent. -/
structure TokenData where
  accessToken : Option String
  expiresIn : Option Int
deriving DecidableEq, Repr

/-- A parsed login response body: `code`, `msg` and `data` as read by
`obtain_token` via `result.get`. -/
structure LoginResponse where
  code : Code
  msg : Option String
  data : Option TokenData
deriving DecidableEq, Repr

/-- The client's token cache (api.py lines 46-47): `_access_token` and
`_token_expiry` (initially `None` and `0`). -/
structure ClientState where
  access_token : Option String
  token_expiry : Int
deriving DecidableEq, Repr

/-- api.py line 15: refresh the token 5 minutes before expiry. -/
def TOKEN_EXPIRY_BUFFER : Int := 300

/-- Embeds the body-inspection part of `obtain_token` (api.py lines 82-97),
given the parsed response body `resp` and the current time `now`: check the
application code (any non-success code raises `DeyeCloudAuthError` with the
body's `msg`), store `data.accessToken` into the cache, raise
`DeyeCloudAuthError` if it is missing or empty, otherwise set the cached
expiry to `now + expiresIn (default 3600) - TOKEN_EXPIRY_BUFFER`.
Returns the outcome together with the client state after the call. -/
def obtain_token (st : ClientState) (now : Int) (resp : LoginResponse) :
    Except DeyeErr Unit × ClientState :=
  if resp.code ∈ successCodes then
    let token_data := resp.data.getD ⟨none, none⟩
    let st1 : ClientState := { st with access_token := token_data.accessToken }
    if strTruthy st1.access_token then
      let expires_in := token_data.expiresIn.getD 3600
      (Except.ok (), { st1 with token_expiry := now + expires_in - TOKEN_EXPIRY_BUFFER })
    else
      (Except.error (DeyeErr.auth "No access token in response"), st1)
  else
    (Except.error (DeyeErr.auth (resp.msg.getD "Unknown error")), st)

/-- Embeds the re-login trigger of `_request` (api.py line 126):
`not self._access_token or time.time() >= self._token_expiry`. -/
def needs_relogin (st : ClientState) (now : Int) : Bool :=
  !strTruthy st.access_token || decide (st.token_expiry ≤ now)

/-- A parsed response body of a generic request, with the payload type `α`
left abstract. -/
structure ApiResponse (α : Type) where
  code : Code
  msg : Option String
  data : Option α
deriving DecidableEq, Repr

/-- Embeds the application-code check of `_request` (api.py lines 145-154):
a success code returns `data` (defaulting to `dflt`, standing for the empty
dict of `result.get("data", {})`); a non-success code raises
`DeyeCloudAuthError` when it is one of `authErrorCodes`, else
`DeyeCloudApiError`, in both cases with the body's `msg`
(default "Unknown error"). -/
def check_response_code {α : Type} (dflt : α) (resp : ApiResponse α) :
    Except DeyeErr α :=
  if resp.code ∈ successCodes then
    Except.ok (resp.data.getD dflt)
  else
    let error_msg := resp.msg.getD "Unknown error"
    if resp.code ∈ authErrorCodes then Except.error (DeyeErr.auth error_msg)
    else Except.error (DeyeErr.api error_msg)

/-- A JSON-like value, as much of it as the coordinator stores: strings,
integers and nested objects. -/
inductive JVal : Type where
  | s (v : String)
  | i (v : Int)
  | d (entries : List (String × JVal))

/-- A JSON object with `V`-valued fields. -/
abbrev Dict (V : Type) : Type := List (String × V)

/-- Python `d[k]`-style lookup (first binding wins, as in a dict where keys
are unique). -/
def dictGet {V : Type} (m : Dict V) (k : String) : Option V :=
  (m.find? (fun p => p.1 == k)).map (fun p => p.2)

/-- Python `d[k] = v`: overwrite the binding in place if the key is present,
otherwise append it. -/
def dictSet {V : Type} (m : Dict V) (k : String) (v : V) : Dict V :=
  if m.any (fun p => p.1 == k) then
    m.map (fun p => if p.1 == k then (k, v) else p)
  else
    m ++ [(k, v)]

/-- Python `d.update(other)`: assign every binding of `other` into `d`. -/
def dictUpdate {V : Type} (m other : Dict V) : Dict V :=
  other.foldl (fun acc p => dictSet acc p.1 p.2) m

/-- The errors `get_device_latest_data` can raise: the `ValueError` of its
batch-size precondition (api.py lines 177-178), or a client error from the
underlying request. -/
inductive FetchErr : Type where
  | validation (msg : String)
  | deye (e : DeyeErr)
deriving Repr

/-- Embeds `get_device_latest_data` (api.py lines 173-182): raise
`ValueError` before any network call when more than 10 serials are passed,
otherwise perform the one underlying request (whose outcome for this cycle
the oracle `fetch` gives).  The second component counts network calls made. -/
def get_device_latest_data
    (fetch : List String → Except DeyeErr (Dict JVal))
    (device_sns : List String) :
    Except FetchErr (Dict JVal) × Nat :=
  if device_sns.length > 10 then
    (Except.error (FetchErr.validation "Maximum 10 devices per request"), 0)
  else
    match fetch device_sns with
    | Except.ok d => (Except.ok d, 1)
    | Except.error e => (Except.error (FetchErr.deye e), 1)

/-- A device summary as it appears nested in a station of the discovery
response: the coordinator reads only `deviceSn` (`dev.get("deviceSn")`,
possibly absent); all other fields are opaque attributes. -/
structure DeviceSummary where
  deviceSn : Option String
  attrs : List (String × String)
deriving DecidableEq, Repr

/-- A station of the discovery response: the coordinator reads `id`
(`station.get("id")`, possibly absent), `name` (`station.get("name", "")`)
and `deviceListItems`; all other fields are opaque attributes. -/
structure Station where
  id : Option String
  name : String
  deviceListItems : List DeviceSummary
  attrs : List (String × String)
deriving DecidableEq, Repr

/-- Python `s.lower()` (the station names involved are ASCII, where
lowering is per-character). -/
def toLowerStr (s : String) : String :=
  ⟨s.data.map Char.toLower⟩

/-- Python `pat in s` substring test, on the underlying character lists. -/
def containsCL (pat : List Char) : List Char → Bool
  | [] => pat.isEmpty
  | b :: bs => pat.isPrefixOf (b :: bs) || containsCL pat bs

/-- Python `pat in s` substring test. -/
def containsSub (s pat : String) : Bool :=
  containsCL pat.data s.data

/-- Outcomes of the client's network calls for one refresh cycle, one
oracle per call the coordinator makes.  Per `_request` (api.py lines
106-161) every such call either returns the response's `data` or raises a
`DeyeCloudApiError`/`DeyeCloudAuthError`, which `Except DeyeErr _` models.
The field `get_station_latest_data` is the call at line 146 of the
integration module; its client method body is not among the provided
sources, so (modelled from the spec, §4.3 step 2) it is a single
independently failable request for one station's latest telemetry. -/
structure Api where
  get_station_latest_data : String → Except DeyeErr (Dict JVal)
  get_device_latest : List String → Except DeyeErr (Dict JVal)
  get_system_config : String → Except DeyeErr (Dict JVal)
  get_battery_config : String → Except DeyeErr (Dict JVal)
  get_tou_config : String → Except DeyeErr (Dict JVal)

/-- A station entry of the snapshot (integration module lines 149-152):
the station's discovery `info` and its latest telemetry. -/
structure StationEntry where
  info : Station
  data : Dict JVal

/-- A device entry of the snapshot (integration module lines 201-205):
the device summary, its batch telemetry, and its merged configuration. -/
structure DeviceEntry where
  info : DeviceSummary
  data : JVal
  config : Dict JVal

/-- The snapshot built by one refresh cycle (integration module lines
124-127): `data = {"stations": {}, "devices": {}}`. -/
structure SnapshotData where
  stations : Dict StationEntry
  devices : Dict DeviceEntry

/-- The truthy device serials of a station's device summaries (integration
module line 163): `[dev.get("deviceSn") for dev in devices if dev.get("deviceSn")]`. -/
def device_sns_of (devices : List DeviceSummary) : List String :=
  devices.filterMap (fun dev =>
    match dev.deviceSn with
    | some s => if s.isEmpty then none else some s
    | none => none)

/-- All serials of a station's device summaries, including empty strings:
what the inner storage loop (integration module lines 174-177) can look up. -/
def all_sns_of (devices : List DeviceSummary) : List String :=
  devices.filterMap (fun dev => dev.deviceSn)

/-- Fuel-driven structural helper for `batches10`; the fuel only serves
termination and is immaterial once it is at least the list's length. -/
def batches10Fuel : Nat → List String → List (List String)
  | _, [] => []
  | 0, l => [l]
  | fuel + 1, x :: xs => (x :: xs.take 9) :: batches10Fuel fuel (xs.drop 9)

/-- Embeds the batching loop bounds of the integration module line 166:
`for i in range(0, len(device_sns), 10): batch = device_sns[i:i+10]`. -/
def batches10 (l : List String) : List (List String) :=
  batches10Fuel l.length l

/-- Embeds the per-device storage step of the batch loop (integration
module lines 174-208): skip the device unless its serial is a key of the
batch response `device_data`; otherwise best-effort fetch the three config
payloads (each failure caught and ignored), merge them as
`config_data.update(...)` / `config_data["tou"] = ...`, and store the
device entry under its serial. -/
def process_device (api : Api) (device_data : Dict JVal)
    (devices : Dict DeviceEntry) (dev : DeviceSummary) : Dict DeviceEntry :=
  match dev.deviceSn with
  | none => devices
  | some dev_sn =>
    match dictGet device_data dev_sn with
    | none => devices
    | some dd =>
      let config0 : Dict JVal := []
      let config1 :=
        match api.get_system_config dev_sn with
        | Except.ok system_config => dictUpdate config0 system_config
        | Except.error _ => config0
      let config2 :=
        match api.get_battery_config dev_sn with
        | Except.ok battery_config => dictUpdate config1 battery_config
        | Except.error _ => config1
      let config3 :=
        match api.get_tou_config dev_sn with
        | Except.ok tou_config => dictSet config2 "tou" (JVal.d tou_config)
        | Except.error _ => config2
      dictSet devices dev_sn ⟨dev, dd, config3⟩

/-- Embeds one iteration of the batch loop (integration module lines
166-212) on batch `batch`: call `get_device_latest_data`; a
`DeyeCloudApiError` is caught (lines 209-212) and the batch's devices are
simply absent this cycle; a `ValueError` from the batch-size precondition
is not caught anywhere in `_async_update_data` and escapes as `Except.error`.
On success every device summary of the station is run through
`process_device` against the response.  The second component logs the
serial lists of the network calls actually made. -/
def process_batch (api : Api) (station_devices : List DeviceSummary)
    (acc : Dict DeviceEntry) (batch : List String) :
    Except String (Dict DeviceEntry) × List (List String) :=
  match get_device_latest_data api.get_device_latest batch with
  | (Except.error (FetchErr.validation m), _) => (Except.error m, [])
  | (Except.error (FetchErr.deye _), _) => (Except.ok acc, [batch])
  | (Except.ok device_data, _) =>
    (Except.ok (station_devices.foldl (process_device api device_data) acc), [batch])

/-- Runs the batch loop over all batches of one station, threading the
device map and concatenating the call logs; an escaping exception aborts
the remaining batches. -/
def process_batches (api : Api) (station_devices : List DeviceSummary) :
    Dict DeviceEntry → List (List String) →
    Except String (Dict DeviceEntry) × List (List String)
  | acc, [] => (Except.ok acc, [])
  | acc, b :: rest =>
    match process_batch api station_devices acc b with
    | (Except.error m, log) => (Except.error m, log)
    | (Except.ok acc2, log) =>
      match process_batches api station_devices acc2 rest with
      | (r, log2) => (r, log ++ log2)

/-- Embeds one iteration of the station loop (integration module lines
130-212): skip stations whose name contains "demo" (case-insensitively) and
stations with a falsy id; fetch the station's latest telemetry, a failure
being caught (lines 154-157) so that only the station entry is missing;
then collect the truthy device serials, cut them into batches of 10 and run
the batch loop. -/
def process_station (api : Api) (acc : SnapshotData) (station : Station) :
    Except String SnapshotData × List (List String) :=
  if containsSub (toLowerStr station.name) "demo" then (Except.ok acc, [])
  else if !strTruthy station.id then (Except.ok acc, [])
  else
    let station_id := station.id.getD ""
    let stations1 :=
      match api.get_station_latest_data station_id with
      | Except.ok station_latest => dictSet acc.stations station_id ⟨station, station_latest⟩
      | Except.error _ => acc.stations
    let device_sns := device_sns_of station.deviceListItems
    match process_batches api station.deviceListItems acc.devices (batches10 device_sns) with
    | (Except.error m, log) => (Except.error m, log)
    | (Except.ok devices2, log) => (Except.ok ⟨stations1, devices2⟩, log)

/-- Runs the station loop over the discovery result, threading the snapshot
under construction and concatenating the call logs. -/
def process_stations (api : Api) : SnapshotData → List Station →
    Except String SnapshotData × List (List String)
  | acc, [] => (Except.ok acc, [])
  | acc, station :: rest =>
    match process_station api acc station with
    | (Except.error m, log) => (Except.error m, log)
    | (Except.ok acc2, log) =>
      match process_stations api acc2 rest with
      | (r, log2) => (r, log ++ log2)

/-- Outcome of one `_async_update_data` cycle: a completed snapshot, the
`UpdateFailed` raised at line 223 when a `DeyeCloudApiError` escapes to the
top-level handler, or an exception the coordinator does not catch at all
(a crash, e.g. a `ValueError`). -/
inductive CycleResult : Type where
  | success (snap : SnapshotData)
  | update_failed (msg : String)
  | crash (msg : String)

/-- The message of a client error, as interpolated into `UpdateFailed`. -/
def errMsg : DeyeErr → String
  | DeyeErr.auth m => m
  | DeyeErr.api m => m

/-- Embeds `_async_update_data` (integration module lines 115-223).
`discovery` is the outcome of the top-level
`get_station_list_with_devices()` call at line 120; that client method's
body is not among the provided sources, so (modelled from the spec, §4.3
step 1 and §4.2) it is a single fallible request yielding the station list
with nested device summaries and raising only the client error taxonomy.
If it raises, the `except DeyeCloudApiError` handler at line 222 turns the
error into `UpdateFailed`; otherwise the station loop builds the snapshot.
The second component logs every device-batch network call of the cycle. -/
def update_data (discovery : Except DeyeErr (List Station)) (api : Api) :
    CycleResult × List (List String) :=
  match discovery with
  | Except.error e =>
    (CycleResult.update_failed ("Error communicating with API: " ++ errMsg e), [])
  | Except.ok stations_data =>
    match process_stations api ⟨[], []⟩ stations_data with
    | (Except.error m, log) => (CycleResult.crash m, log)
    | (Except.ok data, log) => (CycleResult.success data, log)

/-- The published state of the `DataUpdateCoordinator`: the last completed
snapshot (if any) and the success flag of the last cycle. -/
structure CoordinatorState where
  data : Option SnapshotData
  last_update_success : Bool

/-- Embeds the Home Assistant `DataUpdateCoordinator` refresh contract that
`DeyeCloudDataUpdateCoordinator` inherits: a cycle returning a snapshot
publishes it and marks success; a cycle raising `UpdateFailed` (or any
other exception) leaves the previously published data in place and marks
the update as failed. -/
def refresh_cycle (st : CoordinatorState) (discovery : Except DeyeErr (List Station))
    (api : Api) : CoordinatorState × List (List String) :=
  match update_data discovery api with
  | (CycleResult.success snap, log) => (⟨some snap, true⟩, log)
  | (CycleResult.update_failed _, log) => (⟨st.data, false⟩, log)
  | (CycleResult.crash _, log) => (⟨st.data, false⟩, log)

/-- The batches of device-batch calls one station contributes to a cycle:
none when the station is skipped, otherwise its truthy serials cut into
batches of 10. -/
def station_batches (station : Station) : List (List String) :=
  if containsSub (toLowerStr station.name) "demo" then []
  else if !strTruthy station.id then []
  else batches10 (device_sns_of station.deviceListItems)

/-- Stated from the spec's words for comparison (claim C6, §4.3 step 3):
collect all device serials across all (non-skipped) stations into one
combined collection, then partition that combined collection into
consecutive batches of at most 10. -/
def spec_combined_batches (stations_data : List Station) : List (List String) :=
  batches10 (List.flatten (stations_data.map (fun station =>
    if containsSub (toLowerStr station.name) "demo" then []
    else if !strTruthy station.id then []
    else device_sns_of station.deviceListItems)))

/-- The station-map effect of one station-loop iteration (integration
module lines 144-157), as a total function: skipped stations and failed
station-telemetry calls leave the map unchanged. -/
def station_stations_update (api : Api) (stations : Dict StationEntry)
    (station : Station) : Dict StationEntry :=
  if containsSub (toLowerStr station.name) "demo" then stations
  else if !strTruthy station.id then stations
  else
    match api.get_station_latest_data (station.id.getD "") with
    | Except.ok station_latest =>
      dictSet stations (station.id.getD "") ⟨station, station_latest⟩
    | Except.error _ => stations

/-- The device-map effect of one batch-loop iteration whose batch passed
the size precondition: a failed batch call leaves the map unchanged, a
successful one runs every device summary against the response. -/
def run_batch (api : Api) (station_devices : List DeviceSummary)
    (acc : Dict DeviceEntry) (batch : List String) : Dict DeviceEntry :=
  match api.get_device_latest batch with
  | Except.ok device_data => station_devices.foldl (process_device api device_data) acc
  | Except.error _ => acc

/-- The device-map effect of one full station-loop iteration. -/
def station_devices_update (api : Api) (devices : Dict DeviceEntry)
    (station : Station) : Dict DeviceEntry :=
  (station_batches station).foldl (run_batch api station.deviceListItems) devices

/-- The snapshot effect of one full station-loop iteration. -/
def station_step (api : Api) (acc : SnapshotData) (station : Station) : SnapshotData :=
  ⟨station_stations_update api acc.stations station,
   station_devices_update api acc.devices station⟩

/-- Whether a cycle completed with a snapshot. -/
def cycle_ok : CycleResult → Bool
  | CycleResult.success _ => true
  | _ => false

/-- The device serials present in a completed cycle's snapshot. -/
def cycle_device_keys : CycleResult → List String
  | CycleResult.success s => s.devices.map Prod.fst
  | _ => []

/-- The device map of a completed cycle's snapshot. -/
def cycle_devices : CycleResult → Dict DeviceEntry
  | CycleResult.success s => s.devices
  | _ => []

/-- A device summary with the given serial and no further attributes. -/
def mkDev (s : String) : DeviceSummary := ⟨some s, []⟩

/-- An oracle on which every network call succeeds and every device-batch
call echoes exactly the requested serials. -/
def echoApi : Api where
  get_station_latest_data := fun _ => Except.ok []
  get_device_latest := fun sns => Except.ok (sns.map (fun s => (s, JVal.s "x")))
  get_system_config := fun _ => Except.ok []
  get_battery_config := fun _ => Except.ok []
  get_tou_config := fun _ => Except.ok []

/-- A production station with 12 devices. -/
def stA : Station :=
  ⟨some "s1", "Alpha",
   ["d01","d02","d03","d04","d05","d06","d07","d08","d09","d10","d11","d12"].map mkDev, []⟩

/-- A second production station with 12 devices. -/
def stB : Station :=
  ⟨some "s2", "Beta",
   ["d13","d14","d15","d16","d17","d18","d19","d20","d21","d22","d23","d24"].map mkDev, []⟩

/-- A production station with 5 devices. -/
def stC1 : Station := ⟨some "s1", "One", ["a1","a2","a3","a4","a5"].map mkDev, []⟩

/-- A second production station with 5 devices. -/
def stC2 : Station := ⟨some "s2", "Two", ["b1","b2","b3","b4","b5"].map mkDev, []⟩

/-- A production station with 25 devices, i.e. three batches. -/
def stW : Station :=
  ⟨some "w1", "West",
   ["e01","e02","e03","e04","e05","e06","e07","e08","e09","e10",
    "e11","e12","e13","e14","e15","e16","e17","e18","e19","e20",
    "e21","e22","e23","e24","e25"].map mkDev, []⟩

/-- The second of `stW`'s three batches. -/
def badBatch : List String :=
  ["e11","e12","e13","e14","e15","e16","e17","e18","e19","e20"]

/-- An oracle that fails exactly the device-batch call for `badBatch` and
echoes every other batch. -/
def failApi : Api where
  get_station_latest_data := fun _ => Except.ok []
  get_device_latest := fun sns =>
    if sns = badBatch then Except.error (DeyeErr.api "boom")
    else Except.ok (sns.map (fun s => (s, JVal.s "x")))
  get_system_config := fun _ => Except.ok []
  get_battery_config := fun _ => Except.ok []
  get_tou_config := fun _ => Except.ok []

/-- A device summary carrying attributes but no serial number. -/
def devNoSn : DeviceSummary := ⟨none, [("deviceType", "INVERTER")]⟩

theorem batches10Fuel_congr :
    ∀ (f1 f2 : Nat) (l : List String), l.length ≤ f1 → l.length ≤ f2 →
      batches10Fuel f1 l = batches10Fuel f2 l := by
  intro f1
  induction f1 with
  | zero =>
    intro f2 l h1 _
    have : l = [] := List.length_eq_zero.mp (Nat.le_zero.mp h1)
    subst this
    cases f2 <;> rfl
  | succ f ih =>
    intro f2 l h1 h2
    cases l with
    | nil => cases f2 <;> rfl
    | cons x xs =>
      cases f2 with
      | zero =>
        exact absurd h2 (by simp)
      | succ g =>
        show (x :: xs.take 9) :: batches10Fuel f (xs.drop 9)
          = (x :: xs.take 9) :: batches10Fuel g (xs.drop 9)
        congr 1
        refine ih g (xs.drop 9) ?_ ?_ <;>
          · simp only [List.length_drop]
            simp only [List.length_cons] at h1 h2
            omega

theorem batches10_nil : batches10 [] = [] := rfl

theorem batches10_cons (x : String) (xs : List String) :
    batches10 (x :: xs) = (x :: xs.take 9) :: batches10 (xs.drop 9) := by
  show batches10Fuel (xs.length + 1) (x :: xs) = _
  show (x :: xs.take 9) :: batches10Fuel xs.length (xs.drop 9) = _
  unfold batches10
  congr 1
  refine batches10Fuel_congr _ _ _ ?_ ?_ <;>
    · simp only [List.length_drop]
      omega

theorem batches10_length_le_aux :
    ∀ (n : Nat) (l : List String), l.length ≤ n → ∀ b ∈ batches10 l, b.length ≤ 10 := by
  intro n
  induction n with
  | zero =>
    intro l h b hb
    have : l = [] := List.length_eq_zero.mp (Nat.le_zero.mp h)
    subst this
    simp [batches10_nil] at hb
  | succ n ih =>
    intro l h b hb
    cases l with
    | nil => simp [batches10_nil] at hb
    | cons x xs =>
      rw [batches10_cons] at hb
      rcases List.mem_cons.mp hb with hb | hb
      · subst hb
        simp only [List.length_cons, List.length_take]
        omega
      · refine ih (xs.drop 9) ?_ b hb
        simp only [List.length_drop]
        simp only [List.length_cons] at h
        omega

theorem batches10_length_le (l : List String) : ∀ b ∈ batches10 l, b.length ≤ 10 :=
  batches10_length_le_aux l.length l le_rfl

theorem batches10_flatten_aux :
    ∀ (n : Nat) (l : List String), l.length ≤ n → (batches10 l).flatten = l := by
  intro n
  induction n with
  | zero =>
    intro l h
    have : l = [] := List.length_eq_zero.mp (Nat.le_zero.mp h)
    subst this
    simp [batches10_nil]
  | succ n ih =>
    intro l h
    cases l with
    | nil => simp [batches10_nil]
    | cons x xs =>
      rw [batches10_cons]
      have hrec : (batches10 (xs.drop 9)).flatten = xs.drop 9 := by
        refine ih (xs.drop 9) ?_
        simp only [List.length_drop]
        simp only [List.length_cons] at h
        omega
      simp [hrec]

theorem batches10_flatten (l : List String) : (batches10 l).flatten = l :=
  batches10_flatten_aux l.length l le_rfl

theorem batches10_ne_nil_aux :
    ∀ (n : Nat) (l : List String), l.length ≤ n → ∀ b ∈ batches10 l, b ≠ [] := by
  intro n
  induction n with
  | zero =>
    intro l h b hb
    have : l = [] := List.length_eq_zero.mp (Nat.le_zero.mp h)
    subst this
    simp [batches10_nil] at hb
  | succ n ih =>
    intro l h b hb
    cases l with
    | nil => simp [batches10_nil] at hb
    | cons x xs =>
      rw [batches10_cons] at hb
      rcases List.mem_cons.mp hb with hb | hb
      · subst hb; simp
      · refine ih (xs.drop 9) ?_ b hb
        simp only [List.length_drop]
        simp only [List.length_cons] at h
        omega

theorem batches10_ne_nil (l : List String) : ∀ b ∈ batches10 l, b ≠ [] :=
  batches10_ne_nil_aux l.length l le_rfl

theorem dictGet_nil {V : Type} (k : String) : dictGet ([] : Dict V) k = none := rfl

theorem dictGet_cons {V : Type} (p : String × V) (m : Dict V) (k : String) :
    dictGet (p :: m) k = if p.1 = k then some p.2 else dictGet m k := by
  by_cases h : p.1 = k
  · simp [dictGet, List.find?, h]
  · simp only [dictGet, List.find?]
    have : (p.1 == k) = false := beq_eq_false_iff_ne.mpr h
    simp [this, h]

theorem dictGet_map_overwrite_ne {V : Type} (m : Dict V) (k : String) (v : V)
    (k' : String) (h : k' ≠ k) :
    dictGet (m.map (fun p => if p.1 == k then (k, v) else p)) k' = dictGet m k' := by
  induction m with
  | nil => rfl
  | cons p rest ih =>
    simp only [List.map_cons]
    by_cases hp : p.1 = k
    · have hbeq : (p.1 == k) = true := beq_iff_eq.mpr hp
      rw [hbeq, if_pos rfl, dictGet_cons, dictGet_cons]
      have h1 : ¬ ((k, v) : String × V).1 = k' := fun hc => h hc.symm
      have h2 : ¬ (p.1 = k') := by rw [hp]; exact fun hc => h hc.symm
      rw [if_neg h1, if_neg h2]
      exact ih
    · have hbeq : (p.1 == k) = false := beq_eq_false_iff_ne.mpr hp
      rw [hbeq, if_neg (by simp), dictGet_cons, dictGet_cons]
      by_cases hk' : p.1 = k'
      · rw [if_pos hk', if_pos hk']
      · rw [if_neg hk', if_neg hk']
        exact ih

theorem dictGet_map_overwrite_eq {V : Type} (m : Dict V) (k : String) (v : V)
    (h : m.any (fun p => p.1 == k) = true) :
    dictGet (m.map (fun p => if p.1 == k then (k, v) else p)) k = some v := by
  induction m with
  | nil => simp at h
  | cons p rest ih =>
    simp only [List.map_cons]
    by_cases hp : p.1 = k
    · have hbeq : (p.1 == k) = true := beq_iff_eq.mpr hp
      simp only [hbeq, if_true]
      rw [dictGet_cons]
      simp
    · have hbeq : (p.1 == k) = false := beq_eq_false_iff_ne.mpr hp
      simp only [hbeq]
      rw [if_neg (by simp), dictGet_cons, if_neg hp]
      refine ih ?_
      simp only [List.any_cons, hbeq, Bool.false_or] at h
      exact h

theorem dictGet_append_single {V : Type} (m : Dict V) (k : String) (v : V)
    (k' : String) (h : m.any (fun p => p.1 == k) = false) :
    dictGet (m ++ [(k, v)]) k' = if k' = k then some v else dictGet m k' := by
  induction m with
  | nil =>
    simp only [List.nil_append]
    rw [dictGet_cons]
    by_cases hk : k' = k
    · simp [hk]
    · have : ¬ (k = k') := fun hc => hk hc.symm
      simp [this, hk, dictGet_nil]
  | cons p rest ih =>
    simp only [List.any_cons, Bool.or_eq_false_iff] at h
    obtain ⟨h1, h2⟩ := h
    have hp : p.1 ≠ k := by
      intro hc
      rw [hc] at h1
      simp at h1
    simp only [List.cons_append]
    rw [dictGet_cons, dictGet_cons]
    by_cases hk' : p.1 = k'
    · have : ¬ (k' = k) := by
        intro hc
        exact hp (hk'.trans hc)
      simp [hk', this]
    · simp [hk', ih h2]

theorem dictGet_dictSet {V : Type} (m : Dict V) (k : String) (v : V) (k' : String) :
    dictGet (dictSet m k v) k' = if k' = k then some v else dictGet m k' := by
  unfold dictSet
  by_cases h : m.any (fun p => p.1 == k) = true
  · rw [if_pos h]
    by_cases hk : k' = k
    · subst hk
      rw [if_pos rfl]
      exact dictGet_map_overwrite_eq m k' v h
    · rw [if_neg hk]
      exact dictGet_map_overwrite_ne m k v k' hk
  · have h' : m.any (fun p => p.1 == k) = false := by
      cases hx : m.any (fun p => p.1 == k)
      · rfl
      · exact absurd hx h
    rw [if_neg (by simp [h']), dictGet_append_single m k v k' h']

theorem dictGet_dictSet_isSome {V : Type} (m : Dict V) (k : String) (v : V) (k' : String) :
    (dictGet (dictSet m k v) k').isSome
      = ((k' = k : Bool) || (dictGet m k').isSome) := by
  rw [dictGet_dictSet]
  by_cases hk : k' = k <;> simp [hk]

theorem dictGet_echo {V : Type} (f : String → V) (l : List String) (sn : String) :
    (dictGet (l.map (fun s => (s, f s))) sn).isSome = true ↔ sn ∈ l := by
  induction l with
  | nil => simp [dictGet_nil]
  | cons a rest ih =>
    simp only [List.map_cons]
    rw [dictGet_cons]
    by_cases ha : a = sn
    · simp [ha]
    · have : sn ≠ a := fun hc => ha hc.symm
      simp [ha, ih, this]

theorem process_batch_eq (api : Api) (ds : List DeviceSummary) (acc : Dict DeviceEntry)
    (b : List String) (h : b.length ≤ 10) :
    process_batch api ds acc b = (Except.ok (run_batch api ds acc b), [b]) := by
  unfold process_batch get_device_latest_data run_batch
  have h' : ¬ b.length > 10 := by omega
  rw [if_neg h']
  cases api.get_device_latest b <;> rfl

theorem process_batches_eq (api : Api) (ds : List DeviceSummary)
    (bs : List (List String)) (h : ∀ b ∈ bs, b.length ≤ 10) :
    ∀ acc, process_batches api ds acc bs
      = (Except.ok (bs.foldl (run_batch api ds) acc), bs) := by
  induction bs with
  | nil => intro acc; rfl
  | cons b rest ih =>
    intro acc
    have hb : b.length ≤ 10 := h b (List.mem_cons_self b rest)
    have hrest : ∀ x ∈ rest, x.length ≤ 10 :=
      fun x hx => h x (List.mem_cons_of_mem _ hx)
    simp only [process_batches, process_batch_eq api ds acc b hb, ih hrest,
      List.foldl_cons, List.singleton_append]

theorem process_station_eq (api : Api) (acc : SnapshotData) (station : Station) :
    process_station api acc station
      = (Except.ok (station_step api acc station), station_batches station) := by
  unfold process_station station_step station_stations_update station_devices_update
    station_batches
  cases hd : containsSub (toLowerStr station.name) "demo"
  · cases hid : !strTruthy station.id
    · simp only [Bool.false_eq_true, if_false]
      rw [process_batches_eq api station.deviceListItems
        (batches10 (device_sns_of station.deviceListItems))
        (batches10_length_le _) acc.devices]
    · simp only [Bool.false_eq_true, if_false, if_true]
      rfl
  · simp only [if_true]
    rfl

theorem process_stations_eq (api : Api) (ss : List Station) :
    ∀ acc, process_stations api acc ss
      = (Except.ok (ss.foldl (station_step api) acc), (ss.map station_batches).flatten) := by
  induction ss with
  | nil => intro acc; rfl
  | cons st rest ih =>
    intro acc
    simp only [process_stations, process_station_eq, ih, List.map_cons,
      List.flatten_cons, List.foldl_cons]

theorem update_data_ok_eq (ss : List Station) (api : Api) :
    update_data (Except.ok ss) api
      = (CycleResult.success (ss.foldl (station_step api) ⟨[], []⟩),
         (ss.map station_batches).flatten) := by
  show (match process_stations api ⟨[], []⟩ ss with
    | (Except.error m, log) => (CycleResult.crash m, log)
    | (Except.ok data, log) => (CycleResult.success data, log)) = _
  rw [process_stations_eq api ss ⟨[], []⟩]

theorem dictGet_process_device_isSome (api : Api) (r : Dict JVal)
    (acc : Dict DeviceEntry) (dev : DeviceSummary) (sn : String) :
    (dictGet (process_device api r acc dev) sn).isSome = true ↔
      (dictGet acc sn).isSome = true
      ∨ (∃ d_sn, dev.deviceSn = some d_sn ∧ sn = d_sn ∧ (dictGet r d_sn).isSome = true) := by
  unfold process_device
  cases hsn : dev.deviceSn with
  | none => simp
  | some d_sn =>
    cases hr : dictGet r d_sn with
    | none =>
      simp only [hsn, hr]
      constructor
      · exact Or.inl
      · rintro (h | ⟨d, hd, hs, hg⟩)
        · exact h
        · have hd' : d_sn = d := Option.some_inj.mp hd
          rw [← hd', hr] at hg
          simp at hg
    | some dd =>
      simp only [hsn, hr]
      rw [dictGet_dictSet_isSome]
      simp only [Bool.or_eq_true, decide_eq_true_eq]
      constructor
      · rintro (h | h)
        · exact Or.inr ⟨d_sn, rfl, h, by rw [hr]; rfl⟩
        · exact Or.inl h
      · rintro (h | ⟨d, hd, hs, hg⟩)
        · exact Or.inr h
        · have hd' : d_sn = d := Option.some_inj.mp hd
          exact Or.inl (by rw [hs, ← hd'])

theorem dictGet_foldl_process_device (api : Api) (r : Dict JVal)
    (ds : List DeviceSummary) (sn : String) :
    ∀ acc, (dictGet (ds.foldl (process_device api r) acc) sn).isSome = true ↔
      (dictGet acc sn).isSome = true
      ∨ (sn ∈ all_sns_of ds ∧ (dictGet r sn).isSome = true) := by
  induction ds with
  | nil =>
    intro acc
    simp [all_sns_of]
  | cons dev rest ih =>
    intro acc
    simp only [List.foldl_cons]
    rw [ih (process_device api r acc dev), dictGet_process_device_isSome]
    cases hsn : dev.deviceSn with
    | none =>
      have hall : all_sns_of (dev :: rest) = all_sns_of rest := by
        simp [all_sns_of, List.filterMap_cons, hsn]
      rw [hall]
      simp [hsn]
    | some d_sn =>
      have hall : all_sns_of (dev :: rest) = d_sn :: all_sns_of rest := by
        simp [all_sns_of, List.filterMap_cons, hsn]
      rw [hall]
      constructor
      · rintro ((h | ⟨d, hd, hs, hg⟩) | ⟨hm, hg⟩)
        · exact Or.inl h
        · have hd' : d_sn = d := Option.some_inj.mp hd
          subst hd'
          subst hs
          exact Or.inr ⟨List.mem_cons_self _ _, hg⟩
        · exact Or.inr ⟨List.mem_cons_of_mem _ hm, hg⟩
      · rintro (h | ⟨hm, hg⟩)
        · exact Or.inl (Or.inl h)
        · rcases List.mem_cons.mp hm with hm | hm
          · exact Or.inl (Or.inr ⟨d_sn, rfl, hm, by rw [← hm]; exact hg⟩)
          · exact Or.inr ⟨hm, hg⟩

theorem dictGet_foldl_run_batch (api : Api) (ds : List DeviceSummary)
    (bs : List (List String)) (sn : String) :
    ∀ acc, (dictGet (bs.foldl (run_batch api ds) acc) sn).isSome = true ↔
      (dictGet acc sn).isSome = true
      ∨ ∃ b ∈ bs, ∃ r, api.get_device_latest b = Except.ok r
          ∧ sn ∈ all_sns_of ds ∧ (dictGet r sn).isSome = true := by
  induction bs with
  | nil =>
    intro acc
    simp
  | cons b rest ih =>
    intro acc
    simp only [List.foldl_cons]
    rw [ih]
    unfold run_batch
    cases hb : api.get_device_latest b with
    | error e =>
      constructor
      · rintro (h | ⟨b2, hb2, r, hr, hmem, hg⟩)
        · exact Or.inl h
        · exact Or.inr ⟨b2, List.mem_cons_of_mem _ hb2, r, hr, hmem, hg⟩
      · rintro (h | ⟨b2, hb2, r, hr, hmem, hg⟩)
        · exact Or.inl h
        · rcases List.mem_cons.mp hb2 with hb2 | hb2
          · subst hb2
            rw [hb] at hr
            exact absurd hr (by simp)
          · exact Or.inr ⟨b2, hb2, r, hr, hmem, hg⟩
    | ok r0 =>
      rw [dictGet_foldl_process_device]
      constructor
      · rintro ((h | ⟨hmem, hg⟩) | ⟨b2, hb2, r, hr, hmem, hg⟩)
        · exact Or.inl h
        · exact Or.inr ⟨b, List.mem_cons_self _ _, r0, hb, hmem, hg⟩
        · exact Or.inr ⟨b2, List.mem_cons_of_mem _ hb2, r, hr, hmem, hg⟩
      · rintro (h | ⟨b2, hb2, r, hr, hmem, hg⟩)
        · exact Or.inl (Or.inl h)
        · rcases List.mem_cons.mp hb2 with hb2 | hb2
          · subst hb2
            rw [hb] at hr
            rw [Except.ok.injEq] at hr
            subst hr
            exact Or.inl (Or.inr ⟨hmem, hg⟩)
          · exact Or.inr ⟨b2, hb2, r, hr, hmem, hg⟩

theorem mem_all_of_mem_device_sns (ds : List DeviceSummary) (sn : String) :
    sn ∈ device_sns_of ds → sn ∈ all_sns_of ds := by
  intro h
  rcases List.mem_filterMap.mp h with ⟨dev, hdev, hf⟩
  refine List.mem_filterMap.mpr ⟨dev, hdev, ?_⟩
  cases hsn : dev.deviceSn with
  | none => simp [hsn] at hf
  | some s =>
    simp only [hsn] at hf
    by_cases he : s.isEmpty
    · simp [he] at hf
    · simp [he] at hf
      exact congrArg some hf

theorem pairwise_ne_of_disjoint :
    ∀ (L : List (List String)), L.Pairwise List.Disjoint → (∀ b ∈ L, b ≠ []) →
      L.Pairwise (fun a b => a ≠ b) := by
  intro L
  induction L with
  | nil => intro _ _; exact List.Pairwise.nil
  | cons b rest ih =>
    intro hp hne
    rcases List.pairwise_cons.mp hp with ⟨hb, hrest⟩
    refine List.pairwise_cons.mpr
      ⟨?_, ih hrest (fun x hx => hne x (List.mem_cons_of_mem _ hx))⟩
    intro b2 hb2 heq
    rcases List.exists_mem_of_ne_nil b (hne b (List.mem_cons_self _ _)) with ⟨x, hx⟩
    exact hb b2 hb2 hx (heq ▸ hx)

theorem batches10_pairwise_disjoint (l : List String) (h : l.Nodup) :
    (batches10 l).Pairwise List.Disjoint := by
  have hfl : (batches10 l).flatten.Nodup := by
    rw [batches10_flatten]
    exact h
  exact (List.nodup_flatten.mp hfl).2

theorem batches10_nodup (l : List String) (h : l.Nodup) : (batches10 l).Nodup :=
  pairwise_ne_of_disjoint _ (batches10_pairwise_disjoint l h) (batches10_ne_nil l)

theorem batches10_disjoint_of_ne (l : List String) (h : l.Nodup)
    (b1 b2 : List String) (h1 : b1 ∈ batches10 l) (h2 : b2 ∈ batches10 l)
    (hne : b1 ≠ b2) : b1.Disjoint b2 := by
  have hsym : Symmetric (α := List String) List.Disjoint := by
    intro x y hd a hay hax
    exact hd hax hay
  exact (batches10_pairwise_disjoint l h).forall hsym h1 h2 hne

theorem obtain_token_eq (st : ClientState) (now : Int) (resp : LoginResponse) :
    obtain_token st now resp =
      if resp.code ∈ successCodes then
        if strTruthy (resp.data.getD ⟨none, none⟩).accessToken then
          (Except.ok (),
           ⟨(resp.data.getD ⟨none, none⟩).accessToken,
            now + (resp.data.getD ⟨none, none⟩).expiresIn.getD 3600 - TOKEN_EXPIRY_BUFFER⟩)
        else
          (Except.error (DeyeErr.auth "No access token in response"),
           ⟨(resp.data.getD ⟨none, none⟩).accessToken, st.token_expiry⟩)
      else
        (Except.error (DeyeErr.auth (resp.msg.getD "Unknown error")), st) := rfl

/-- Claim C1: if the top-level station discovery call fails with a client
error (auth, API or transport, all of which surface as `DeyeErr`), the
refresh cycle raises `UpdateFailed` (an update-failure condition, not an
uncaught crash) and leaves the previously published snapshot unchanged;
and whenever discovery succeeds, no deeper failure (any behaviour of the
per-station, per-batch and per-config oracles) ever escalates: the cycle
always completes with a snapshot. -/
theorem claim_C1_discovery_failure_isolation :
    (∀ (st : CoordinatorState) (e : DeyeErr) (api : Api),
      refresh_cycle st (Except.error e) api = (⟨st.data, false⟩, []))
    ∧ (∀ (e : DeyeErr) (api : Api),
      (update_data (Except.error e) api).1
        = CycleResult.update_failed ("Error communicating with API: " ++ errMsg e))
    ∧ (∀ (ss : List Station) (api : Api),
      (update_data (Except.ok ss) api).1
        = CycleResult.success (ss.foldl (station_step api) ⟨[], []⟩)) := by
  refine ⟨fun st e api => rfl, fun e api => rfl, fun ss api => ?_⟩
  rw [update_data_ok_eq]

/-- Claim C2: a device-batch telemetry fetch with more than 10 serials
raises the validation error before any network call (zero network calls);
with 10 or fewer serials it performs exactly the one underlying call and
never raises a validation error. -/
theorem claim_C2_batch_size_validation
    (fetch : List String → Except DeyeErr (Dict JVal)) (device_sns : List String) :
    (device_sns.length > 10 →
      get_device_latest_data fetch device_sns
        = (Except.error (FetchErr.validation "Maximum 10 devices per request"), 0))
    ∧ (device_sns.length ≤ 10 →
      (get_device_latest_data fetch device_sns).2 = 1
      ∧ ∀ m, (get_device_latest_data fetch device_sns).1
          ≠ Except.error (FetchErr.validation m)) := by
  constructor
  · intro h
    unfold get_device_latest_data
    rw [if_pos h]
  · intro h
    have h' : ¬ device_sns.length > 10 := by omega
    unfold get_device_latest_data
    rw [if_neg h']
    cases hf : fetch device_sns with
    | ok d => exact ⟨rfl, fun m => by simp⟩
    | error e => exact ⟨rfl, fun m => by simp⟩

/-- Witness for claim C2: 11 serials are rejected with zero calls, 2
serials make exactly one call. -/
theorem claim_C2_witness :
    get_device_latest_data (fun _ => Except.ok [])
        ["a","b","c","d","e","f","g","h","i","j","k"]
      = (Except.error (FetchErr.validation "Maximum 10 devices per request"), 0)
    ∧ (get_device_latest_data (fun _ => Except.ok []) ["a","b"]).2 = 1 :=
  ⟨(claim_C2_batch_size_validation _ _).1 (by decide),
   ((claim_C2_batch_size_validation _ _).2 (by decide)).1⟩

/-- Claim C3: after a token is obtained at time `T` with server TTL `S`,
an authenticated request at time `t` reuses the cached token (no re-login)
exactly when `t < T + S - margin`, and triggers a re-login exactly when
`t ≥ T + S - margin`, including the boundary instant itself
(`margin = TOKEN_EXPIRY_BUFFER = 300`). -/
theorem claim_C3_token_reuse_boundary (st : ClientState) (T S t : Int)
    (resp : LoginResponse)
    (hok : (obtain_token st T resp).1 = Except.ok ())
    (hS : (resp.data.getD ⟨none, none⟩).expiresIn.getD 3600 = S) :
    (needs_relogin (obtain_token st T resp).2 t = false
      ↔ t < T + S - TOKEN_EXPIRY_BUFFER)
    ∧ (needs_relogin (obtain_token st T resp).2 t = true
      ↔ T + S - TOKEN_EXPIRY_BUFFER ≤ t) := by
  rw [obtain_token_eq] at hok ⊢
  by_cases hc : resp.code ∈ successCodes
  · rw [if_pos hc] at hok ⊢
    by_cases ht : strTruthy (resp.data.getD ⟨none, none⟩).accessToken = true
    · rw [if_pos ht] at hok ⊢
      unfold needs_relogin
      rw [hS]
      show ((!strTruthy (resp.data.getD ⟨none, none⟩).accessToken
        || decide (T + S - TOKEN_EXPIRY_BUFFER ≤ t)) = false ↔ _) ∧ _
      rw [ht]
      constructor
      · constructor
        · intro h
          simp only [Bool.not_true, Bool.false_or, decide_eq_false_iff_not] at h
          omega
        · intro h
          simp only [Bool.not_true, Bool.false_or, decide_eq_false_iff_not]
          omega
      · constructor
        · intro h
          simp only [Bool.not_true, Bool.false_or, decide_eq_true_eq] at h
          exact h
        · intro h
          simp only [Bool.not_true, Bool.false_or, decide_eq_true_eq]
          exact h
    · rw [if_neg ht] at hok
      exact absurd hok (by simp)
  · rw [if_neg hc] at hok
    exact absurd hok (by simp)

/-- Witness for claim C3: token obtained at 1000 with TTL 3600; the
request at the exact margin instant 4300 re-logs in, the one at 4299
does not. -/
theorem claim_C3_witness :
    needs_relogin
      (obtain_token ⟨none, 0⟩ 1000
        ⟨Code.num 0, none, some ⟨some "tok", some 3600⟩⟩).2 4300 = true
    ∧ needs_relogin
      (obtain_token ⟨none, 0⟩ 1000
        ⟨Code.num 0, none, some ⟨some "tok", some 3600⟩⟩).2 4299 = false :=
  ⟨(claim_C3_token_reuse_boundary ⟨none, 0⟩ 1000 3600 4300
      ⟨Code.num 0, none, some ⟨some "tok", some 3600⟩⟩ rfl (by decide)).2.mpr
      (by decide),
   (claim_C3_token_reuse_boundary ⟨none, 0⟩ 1000 3600 4299
      ⟨Code.num 0, none, some ⟨some "tok", some 3600⟩⟩ rfl (by decide)).1.mpr
      (by decide)⟩

/-- Claim C4: the four encodings of the application-level success codes
(numeric 0 and 1000000 and their string forms) are interchangeable: both
`obtain_token` and the request code check behave identically under any two
of them; in particular token extraction treats code 0 and code "0"
identically. -/
theorem claim_C4_success_code_equivalence :
    (∀ (st : ClientState) (now : Int) (msg : Option String)
      (td : Option TokenData) (c c' : Code),
      c ∈ successCodes → c' ∈ successCodes →
        obtain_token st now ⟨c, msg, td⟩ = obtain_token st now ⟨c', msg, td⟩)
    ∧ (∀ (α : Type) (dflt : α) (msg : Option String) (dat : Option α) (c c' : Code),
      c ∈ successCodes → c' ∈ successCodes →
        check_response_code dflt ⟨c, msg, dat⟩ = check_response_code dflt ⟨c', msg, dat⟩) := by
  constructor
  · intro st now msg td c c' hc hc'
    rw [obtain_token_eq, obtain_token_eq]
    rw [if_pos hc, if_pos hc']
  · intro α dflt msg dat c c' hc hc'
    unfold check_response_code
    rw [if_pos hc, if_pos hc']

/-- Witness for claim C4: numeric 0 vs string "0" on a login body, and
numeric 1000000 vs string "1000000" on a request body. -/
theorem claim_C4_witness :
    obtain_token ⟨none, 0⟩ 5 ⟨Code.num 0, none, some ⟨some "t", none⟩⟩
      = obtain_token ⟨none, 0⟩ 5 ⟨Code.str "0", none, some ⟨some "t", none⟩⟩
    ∧ check_response_code (0 : Int) ⟨Code.num 1000000, none, some 7⟩
      = check_response_code (0 : Int) ⟨Code.str "1000000", none, some 7⟩ :=
  ⟨claim_C4_success_code_equivalence.1 ⟨none, 0⟩ 5 none (some ⟨some "t", none⟩)
      (Code.num 0) (Code.str "0") (by decide) (by decide),
   claim_C4_success_code_equivalence.2 Int 0 none (some 7)
      (Code.num 1000000) (Code.str "1000000") (by decide) (by decide)⟩

/-- Claim C8: on a response whose code is outside the success set, the
request raises the auth error exactly when the code is one of the known
auth-rejection codes (numeric or string form) and the generic API error
otherwise; a success code never raises. -/
theorem claim_C8_error_code_classification {α : Type} (dflt : α) (resp : ApiResponse α) :
    (resp.code ∈ successCodes →
      check_response_code dflt resp = Except.ok (resp.data.getD dflt))
    ∧ (resp.code ∉ successCodes →
      ((check_response_code dflt resp
          = Except.error (DeyeErr.auth (resp.msg.getD "Unknown error")))
        ↔ resp.code ∈ authErrorCodes)
      ∧ ((check_response_code dflt resp
          = Except.error (DeyeErr.api (resp.msg.getD "Unknown error")))
        ↔ resp.code ∉ authErrorCodes)) := by
  constructor
  · intro h
    unfold check_response_code
    rw [if_pos h]
  · intro h
    unfold check_response_code
    rw [if_neg h]
    by_cases ha : resp.code ∈ authErrorCodes
    · rw [if_pos ha]
      exact ⟨⟨fun _ => ha, fun _ => rfl⟩,
        ⟨fun he => by simp at he, fun hna => absurd ha hna⟩⟩
    · rw [if_neg ha]
      exact ⟨⟨fun he => by simp at he, fun hia => absurd hia ha⟩,
        ⟨fun _ => ha, fun _ => rfl⟩⟩

/-- Witness for claim C8: the expired-token code 2101017 raises the auth
error, the unknown code 42 raises the generic API error. -/
theorem claim_C8_witness :
    check_response_code (0 : Int) ⟨Code.num 2101017, some "token expired", none⟩
      = Except.error (DeyeErr.auth "token expired")
    ∧ check_response_code (0 : Int) ⟨Code.num 42, none, none⟩
      = Except.error (DeyeErr.api "Unknown error") :=
  ⟨((claim_C8_error_code_classification 0 _).2 (by decide)).1.mpr (by decide),
   ((claim_C8_error_code_classification 0 _).2 (by decide)).2.mpr (by decide)⟩

/-- Claim C10 (implicit): on a login response with a success code, a
missing or empty access token makes token acquisition fail with the auth
error; otherwise the call succeeds, the cached token is exactly the
response's token, and the cached expiry is `now` plus the server-provided
TTL (3600 when absent) minus the 300-second margin. -/
theorem claim_C10_token_extraction (st : ClientState) (now : Int) (resp : LoginResponse)
    (hc : resp.code ∈ successCodes) :
    (strTruthy (resp.data.getD ⟨none, none⟩).accessToken = false →
      (obtain_token st now resp).1
        = Except.error (DeyeErr.auth "No access token in response"))
    ∧ (strTruthy (resp.data.getD ⟨none, none⟩).accessToken = true →
      obtain_token st now resp
        = (Except.ok (),
           ⟨(resp.data.getD ⟨none, none⟩).accessToken,
            now + (resp.data.getD ⟨none, none⟩).expiresIn.getD 3600
              - TOKEN_EXPIRY_BUFFER⟩)) := by
  rw [obtain_token_eq, if_pos hc]
  constructor
  · intro h
    rw [if_neg (by simp [h])]
  · intro h
    rw [if_pos h]

/-- Witness for claim C10: an empty token under success code 0 fails with
the auth error; a present token is cached with expiry now + TTL - 300. -/
theorem claim_C10_witness :
    (obtain_token ⟨some "old", 50⟩ 100 ⟨Code.num 0, none, some ⟨some "", none⟩⟩).1
      = Except.error (DeyeErr.auth "No access token in response")
    ∧ obtain_token ⟨none, 0⟩ 100 ⟨Code.num 0, none, some ⟨some "fresh", some 7200⟩⟩
      = (Except.ok (), ⟨some "fresh", 100 + 7200 - TOKEN_EXPIRY_BUFFER⟩) :=
  ⟨(claim_C10_token_extraction ⟨some "old", 50⟩ 100 _ (by decide)).1 (by decide),
   (claim_C10_token_extraction ⟨none, 0⟩ 100 _ (by decide)).2 (by decide)⟩

/-- Counterexample to claim C6 as stated: with two non-demo stations of 5
devices each and an all-successful oracle, the coordinator issues the two
per-station batches `[a1..a5]` and `[b1..b5]`, not the single batch that
partitioning the combined 10-serial collection into chunks of at most 10
would produce. -/
theorem claim_C6_counterexample :
    (update_data (Except.ok [stC1, stC2]) echoApi).2
      = [["a1","a2","a3","a4","a5"], ["b1","b2","b3","b4","b5"]]
    ∧ spec_combined_batches [stC1, stC2]
      = [["a1","a2","a3","a4","a5","b1","b2","b3","b4","b5"]]
    ∧ (update_data (Except.ok [stC1, stC2]) echoApi).2
      ≠ spec_combined_batches [stC1, stC2] :=
  ⟨by decide, by decide, by decide⟩

/-- Claim C6 as amended: during a refresh cycle the fetcher collects each
station's device serials and partitions each station's collection
separately into consecutive batches of at most 10 serials per request,
fetching each batch's latest telemetry; each issued batch has at most 10
serials and, per station, the batches exactly cover its (serial-bearing)
devices' serials. -/
theorem claim_C6_per_station_batching (ss : List Station) (api : Api) :
    (update_data (Except.ok ss) api).2 = (ss.map station_batches).flatten
    ∧ (∀ station : Station, ∀ b ∈ station_batches station, b.length ≤ 10)
    ∧ (∀ station : Station, (station_batches station).flatten
        = if containsSub (toLowerStr station.name) "demo" then []
          else if !strTruthy station.id then []
          else device_sns_of station.deviceListItems) := by
  refine ⟨by rw [update_data_ok_eq], fun station b hb => ?_, fun station => ?_⟩
  · unfold station_batches at hb
    cases hd : containsSub (toLowerStr station.name) "demo" <;> rw [hd] at hb
    · cases hid : !strTruthy station.id <;> rw [hid] at hb
      · simp only [Bool.false_eq_true, if_false] at hb
        exact batches10_length_le _ b hb
      · simp at hb
    · simp at hb
  · unfold station_batches
    cases hd : containsSub (toLowerStr station.name) "demo"
    · cases hid : !strTruthy station.id
      · simp only [Bool.false_eq_true, if_false]
        exact batches10_flatten _
      · simp
    · simp

/-- Witness for the amended claim C6 at the two 5-device stations and the
all-successful oracle. -/
theorem claim_C6_witness :
    (update_data (Except.ok [stC1, stC2]) echoApi).2
      = ([stC1, stC2].map station_batches).flatten
    ∧ (["a1","a2","a3","a4","a5"] : List String).length ≤ 10 :=
  ⟨(claim_C6_per_station_batching [stC1, stC2] echoApi).1,
   (claim_C6_per_station_batching [stC1, stC2] echoApi).2.1 stC1
      ["a1","a2","a3","a4","a5"] (by decide)⟩

/-- Claim C7: with discovery returning two stations of 12 serial-bearing
devices each and every network call succeeding (batch calls echoing the
requested serials), the cycle completes, issues exactly two batch calls
per station (10 serials and then 2), and all 24 devices appear in the
snapshot's device mapping. -/
theorem claim_C7_two_stations_twelve_devices :
    cycle_ok (update_data (Except.ok [stA, stB]) echoApi).1 = true
    ∧ (update_data (Except.ok [stA, stB]) echoApi).2 =
      [["d01","d02","d03","d04","d05","d06","d07","d08","d09","d10"],
       ["d11","d12"],
       ["d13","d14","d15","d16","d17","d18","d19","d20","d21","d22"],
       ["d23","d24"]]
    ∧ cycle_device_keys (update_data (Except.ok [stA, stB]) echoApi).1 =
      ["d01","d02","d03","d04","d05","d06","d07","d08","d09","d10","d11","d12",
       "d13","d14","d15","d16","d17","d18","d19","d20","d21","d22","d23","d24"] :=
  ⟨by decide, by decide, by decide⟩

/-- Claim C5: for a processed (non-demo, id-bearing) station whose distinct
serials are batched, if exactly one batch's fetch fails while every other
batch's fetch succeeds and echoes its requested serials, then the cycle
completes successfully, every device of the successful batches appears in
the snapshot's device mapping, the failed batch's devices are all absent,
and the batch plan the cycle requests (its call log) lists the failed
batch only once, duplicate-free: it is not retried. -/
theorem claim_C5_batch_failure_isolation
    (api : Api) (station : Station) (bad : List String) (e : DeyeErr)
    (hdemo : containsSub (toLowerStr station.name) "demo" = false)
    (hid : strTruthy station.id = true)
    (hnodup : (device_sns_of station.deviceListItems).Nodup)
    (hbad : bad ∈ batches10 (device_sns_of station.deviceListItems))
    (hfail : api.get_device_latest bad = Except.error e)
    (hsucc : ∀ b ∈ batches10 (device_sns_of station.deviceListItems), b ≠ bad →
      ∃ r, api.get_device_latest b = Except.ok r
        ∧ ∀ sn, ((dictGet r sn).isSome = true ↔ sn ∈ b)) :
    ∃ snap, update_data (Except.ok [station]) api
        = (CycleResult.success snap, batches10 (device_sns_of station.deviceListItems))
      ∧ (∀ sn ∈ device_sns_of station.deviceListItems, sn ∉ bad →
          (dictGet snap.devices sn).isSome = true)
      ∧ (∀ sn ∈ bad, dictGet snap.devices sn = none)
      ∧ (batches10 (device_sns_of station.deviceListItems)).Nodup := by
  have hsb : station_batches station = batches10 (device_sns_of station.deviceListItems) := by
    unfold station_batches
    rw [hdemo, hid]
    simp
  have hdevs : (station_step api ⟨[], []⟩ station).devices
      = (station_batches station).foldl (run_batch api station.deviceListItems) [] := rfl
  refine ⟨station_step api ⟨[], []⟩ station, ?_, ?_, ?_, ?_⟩
  · rw [update_data_ok_eq]
    simp [hsb]
  · intro sn hsn hnb
    have hsn' : sn ∈ (batches10 (device_sns_of station.deviceListItems)).flatten := by
      rw [batches10_flatten]
      exact hsn
    rcases List.mem_flatten.mp hsn' with ⟨b0, hb0, hsnb0⟩
    have hneq : b0 ≠ bad := fun hq => hnb (hq ▸ hsnb0)
    rcases hsucc b0 hb0 hneq with ⟨r, hr, hecho⟩
    rw [hdevs]
    refine (dictGet_foldl_run_batch api station.deviceListItems
      (station_batches station) sn []).mpr (Or.inr ⟨b0, ?_, r, hr,
        mem_all_of_mem_device_sns _ _ hsn, (hecho sn).mpr hsnb0⟩)
    rw [hsb]
    exact hb0
  · intro sn hsnbad
    have hnot : ¬ (dictGet (station_step api ⟨[], []⟩ station).devices sn).isSome = true := by
      intro hcon
      rw [hdevs] at hcon
      rcases (dictGet_foldl_run_batch api station.deviceListItems
        (station_batches station) sn []).mp hcon with h | ⟨b2, hb2, r, hr, hmem, hg⟩
      · simp [dictGet_nil] at h
      · rw [hsb] at hb2
        by_cases hbb : b2 = bad
        · subst hbb
          rw [hfail] at hr
          exact absurd hr (by simp)
        · rcases hsucc b2 hb2 hbb with ⟨r2, hr2, hecho⟩
          rw [hr] at hr2
          have hrr : r = r2 := Except.ok.inj hr2
          subst hrr
          have hsnb2 : sn ∈ b2 := (hecho sn).mp hg
          exact batches10_disjoint_of_ne _ hnodup b2 bad hb2 hbad hbb hsnb2 hsnbad
    cases hdg : dictGet (station_step api ⟨[], []⟩ station).devices sn with
    | none => rfl
    | some v => exact absurd (by rw [hdg]; rfl) hnot
  · exact batches10_nodup _ hnodup

/-- Witness for claim C5: the 25-device station `stW` under the oracle
that fails exactly its second batch; batch-1 device e01 is present,
failed-batch device e11 is absent, and the call log is the duplicate-free
three-batch plan. -/
theorem claim_C5_witness :
    (update_data (Except.ok [stW]) failApi).2
      = batches10 (device_sns_of stW.deviceListItems)
    ∧ (dictGet (cycle_devices (update_data (Except.ok [stW]) failApi).1) "e01").isSome = true
    ∧ dictGet (cycle_devices (update_data (Except.ok [stW]) failApi).1) "e11" = none := by
  have hbs : batches10 (device_sns_of stW.deviceListItems)
      = [["e01","e02","e03","e04","e05","e06","e07","e08","e09","e10"],
         badBatch,
         ["e21","e22","e23","e24","e25"]] := by decide
  have hsucc : ∀ b ∈ batches10 (device_sns_of stW.deviceListItems), b ≠ badBatch →
      ∃ r, failApi.get_device_latest b = Except.ok r
        ∧ ∀ sn, ((dictGet r sn).isSome = true ↔ sn ∈ b) := by
    intro b hb hne
    rw [hbs] at hb
    simp only [List.mem_cons, List.not_mem_nil, or_false] at hb
    rcases hb with hb | hb | hb
    · subst hb
      exact ⟨_, rfl, fun sn => dictGet_echo (fun _ => JVal.s "x") _ sn⟩
    · exact absurd hb hne
    · subst hb
      exact ⟨_, rfl, fun sn => dictGet_echo (fun _ => JVal.s "x") _ sn⟩
  have H := claim_C5_batch_failure_isolation failApi stW badBatch (DeyeErr.api "boom")
    (by decide) (by decide) (by decide) (by rw [hbs]; simp) rfl hsucc
  rcases H with ⟨snap, hequ, h1, h2, _⟩
  refine ⟨by rw [hequ], ?_, ?_⟩
  · have hcd : cycle_devices (update_data (Except.ok [stW]) failApi).1 = snap.devices := by
      rw [hequ]
      rfl
    rw [hcd]
    exact h1 "e01" (by decide) (by decide)
  · have hcd : cycle_devices (update_data (Except.ok [stW]) failApi).1 = snap.devices := by
      rw [hequ]
      rfl
    rw [hcd]
    exact h2 "e11" (by decide)

theorem any_key_eq_of_map_fst {V W : Type} (m1 : Dict V) (m2 : Dict W)
    (h : m1.map Prod.fst = m2.map Prod.fst) (k : String) :
    m1.any (fun p => p.1 == k) = m2.any (fun p => p.1 == k) := by
  have haux : ∀ {U : Type} (m : Dict U),
      m.any (fun p => p.1 == k) = (m.map Prod.fst).any (fun s => s == k) := by
    intro U m
    induction m with
    | nil => rfl
    | cons p rest ih => simp [ih]
  rw [haux m1, haux m2, h]

theorem map_fst_dictSet {V : Type} (m : Dict V) (k : String) (v : V) :
    (dictSet m k v).map Prod.fst
      = if m.any (fun p => p.1 == k) then m.map Prod.fst
        else m.map Prod.fst ++ [k] := by
  unfold dictSet
  by_cases h : m.any (fun p => p.1 == k) = true
  · rw [if_pos h, if_pos h, List.map_map]
    refine List.map_congr_left ?_
    intro p _
    by_cases hp : p.1 = k
    · have : (p.1 == k) = true := beq_iff_eq.mpr hp
      simp [Function.comp, this, hp]
    · have : (p.1 == k) = false := beq_eq_false_iff_ne.mpr hp
      simp [Function.comp, this]
  · rw [if_neg h, if_neg h, List.map_append]
    rfl

theorem station_stations_update_keys (api : Api) (station : Station)
    (m1 m2 : Dict StationEntry) (h : m1.map Prod.fst = m2.map Prod.fst) :
    (station_stations_update api m1 station).map Prod.fst
      = (station_stations_update api m2 station).map Prod.fst := by
  unfold station_stations_update
  cases hd : containsSub (toLowerStr station.name) "demo"
  · cases hid : !strTruthy station.id
    · simp only [Bool.false_eq_true, if_false]
      cases hsl : api.get_station_latest_data (station.id.getD "") with
      | ok sl =>
        rw [map_fst_dictSet, map_fst_dictSet,
          any_key_eq_of_map_fst m1 m2 h (station.id.getD ""), h]
      | error e2 => exact h
    · simp only [if_true]
      exact h
  · simp only [if_true]
    exact h

theorem station_step_preserves (api : Api) (station : Station) (s1 s2 : SnapshotData)
    (hdev : s1.devices = s2.devices)
    (hkeys : s1.stations.map Prod.fst = s2.stations.map Prod.fst) :
    (station_step api s1 station).devices = (station_step api s2 station).devices
    ∧ (station_step api s1 station).stations.map Prod.fst
      = (station_step api s2 station).stations.map Prod.fst := by
  constructor
  · show station_devices_update api s1.devices station
      = station_devices_update api s2.devices station
    rw [hdev]
  · show (station_stations_update api s1.stations station).map Prod.fst = _
    exact station_stations_update_keys api station _ _ hkeys

theorem foldl_station_step_preserves (api : Api) (posts : List Station) :
    ∀ (s1 s2 : SnapshotData), s1.devices = s2.devices →
      s1.stations.map Prod.fst = s2.stations.map Prod.fst →
      (posts.foldl (station_step api) s1).devices
        = (posts.foldl (station_step api) s2).devices := by
  induction posts with
  | nil =>
    intro s1 s2 h _
    exact h
  | cons st rest ih =>
    intro s1 s2 hdev hkeys
    simp only [List.foldl_cons]
    rcases station_step_preserves api st s1 s2 hdev hkeys with ⟨h1, h2⟩
    exact ih _ _ h1 h2

theorem process_device_noserial (api : Api) (r : Dict JVal) (acc : Dict DeviceEntry)
    (dev : DeviceSummary) (h : dev.deviceSn = none) :
    process_device api r acc dev = acc := by
  unfold process_device
  rw [h]

theorem foldl_congr_fun {α β : Type} (l : List β) (f g : α → β → α)
    (h : ∀ a b, f a b = g a b) : ∀ a, l.foldl f a = l.foldl g a := by
  induction l with
  | nil => intro a; rfl
  | cons b rest ih =>
    intro a
    simp only [List.foldl_cons]
    rw [h a b]
    exact ih _

theorem station_noserial_core (api : Api) (station : Station)
    (pre post : List DeviceSummary) (dev0 : DeviceSummary) (h0 : dev0.deviceSn = none) :
    station_batches { station with deviceListItems := pre ++ dev0 :: post }
      = station_batches { station with deviceListItems := pre ++ post }
    ∧ ∀ devs, station_devices_update api devs
        { station with deviceListItems := pre ++ dev0 :: post }
      = station_devices_update api devs
        { station with deviceListItems := pre ++ post } := by
  have hsns : device_sns_of (pre ++ dev0 :: post) = device_sns_of (pre ++ post) := by
    unfold device_sns_of
    simp only [List.filterMap_append, List.filterMap_cons, h0]
  have hfold : ∀ (r : Dict JVal) (acc : Dict DeviceEntry),
      (pre ++ dev0 :: post).foldl (process_device api r) acc
        = (pre ++ post).foldl (process_device api r) acc := by
    intro r acc
    rw [List.foldl_append, List.foldl_append, List.foldl_cons,
      process_device_noserial api r _ dev0 h0]
  have hsb : station_batches { station with deviceListItems := pre ++ dev0 :: post }
      = station_batches { station with deviceListItems := pre ++ post } := by
    unfold station_batches
    dsimp only
    rw [hsns]
  refine ⟨hsb, fun devs => ?_⟩
  unfold station_devices_update
  rw [hsb]
  dsimp only
  have hrb : ∀ (acc : Dict DeviceEntry) (b : List String),
      run_batch api (pre ++ dev0 :: post) acc b = run_batch api (pre ++ post) acc b := by
    intro acc b
    unfold run_batch
    cases api.get_device_latest b with
    | ok r => exact hfold r acc
    | error e2 => rfl
  exact foldl_congr_fun _ _ _ hrb devs

theorem station_stations_update_keys_same_idname (api : Api) (m : Dict StationEntry)
    (st1 st2 : Station) (hid : st1.id = st2.id) (hname : st1.name = st2.name) :
    (station_stations_update api m st1).map Prod.fst
      = (station_stations_update api m st2).map Prod.fst := by
  unfold station_stations_update
  rw [hid, hname]
  cases hd : containsSub (toLowerStr st2.name) "demo"
  · cases hid2 : !strTruthy st2.id
    · simp only [Bool.false_eq_true, if_false]
      cases hsl : api.get_station_latest_data (st2.id.getD "") with
      | ok sl => rw [map_fst_dictSet, map_fst_dictSet]
      | error e2 => rfl
    · simp only [if_true]
  · simp only [if_true]

/-- Claim C9: a device summary without a serial number is skipped
silently: a refresh cycle over stations containing it issues exactly the
same device-batch calls as the cycle without it, both cycles complete
with a snapshot, and the two snapshots' device mappings are identical —
so the serial-less device gets no entry, causes no error, and does not
affect the processing of any other device. -/
theorem claim_C9_noserial_skipped (api : Api) (pres posts : List Station)
    (station : Station) (pre post : List DeviceSummary) (dev0 : DeviceSummary)
    (h0 : dev0.deviceSn = none) :
    (update_data (Except.ok
        (pres ++ { station with deviceListItems := pre ++ dev0 :: post } :: posts)) api).2
      = (update_data (Except.ok
        (pres ++ { station with deviceListItems := pre ++ post } :: posts)) api).2
    ∧ ∃ s1 s2,
        (update_data (Except.ok
            (pres ++ { station with deviceListItems := pre ++ dev0 :: post } :: posts)) api).1
          = CycleResult.success s1
        ∧ (update_data (Except.ok
            (pres ++ { station with deviceListItems := pre ++ post } :: posts)) api).1
          = CycleResult.success s2
        ∧ s1.devices = s2.devices := by
  rcases station_noserial_core api station pre post dev0 h0 with ⟨hsb, hdev⟩
  constructor
  · rw [update_data_ok_eq, update_data_ok_eq]
    simp only [List.map_append, List.map_cons, hsb]
  · refine ⟨(pres ++ { station with deviceListItems := pre ++ dev0 :: post } :: posts).foldl
        (station_step api) ⟨[], []⟩,
      (pres ++ { station with deviceListItems := pre ++ post } :: posts).foldl
        (station_step api) ⟨[], []⟩, ?_, ?_, ?_⟩
    · rw [update_data_ok_eq]
    · rw [update_data_ok_eq]
    · show ((pres ++ { station with deviceListItems := pre ++ dev0 :: post } :: posts).foldl
          (station_step api) ⟨[], []⟩).devices
        = ((pres ++ { station with deviceListItems := pre ++ post } :: posts).foldl
          (station_step api) ⟨[], []⟩).devices
      rw [List.foldl_append, List.foldl_append, List.foldl_cons, List.foldl_cons]
      refine foldl_station_step_preserves api posts _ _ ?_ ?_
      · show station_devices_update api
            (pres.foldl (station_step api) ⟨[], []⟩).devices
            { station with deviceListItems := pre ++ dev0 :: post }
          = station_devices_update api
            (pres.foldl (station_step api) ⟨[], []⟩).devices
            { station with deviceListItems := pre ++ post }
        exact hdev _
      · show (station_stations_update api
            (pres.foldl (station_step api) ⟨[], []⟩).stations
            { station with deviceListItems := pre ++ dev0 :: post }).map Prod.fst
          = (station_stations_update api
            (pres.foldl (station_step api) ⟨[], []⟩).stations
            { station with deviceListItems := pre ++ post }).map Prod.fst
        exact station_stations_update_keys_same_idname api _ _ _ rfl rfl

/-- Witness for claim C9: a station whose middle device summary has no
serial behaves exactly like the station without it, and the snapshot's
device keys are just the two serial-bearing devices. -/
theorem claim_C9_witness :
    (update_data (Except.ok
        [⟨some "n1", "North", [mkDev "x1", devNoSn, mkDev "x2"], []⟩]) echoApi).2
      = (update_data (Except.ok
        [⟨some "n1", "North", [mkDev "x1", mkDev "x2"], []⟩]) echoApi).2
    ∧ cycle_device_keys (update_data (Except.ok
        [⟨some "n1", "North", [mkDev "x1", devNoSn, mkDev "x2"], []⟩]) echoApi).1
      = ["x1", "x2"] :=
  ⟨(claim_C9_noserial_skipped echoApi [] [] ⟨some "n1", "North", [], []⟩
      [mkDev "x1"] [mkDev "x2"] devNoSn rfl).1,
   by decide⟩

end DeyeCloud
